import Mathlib

/-!
Verification development for the master_control fleet workload orchestrator.

The Lean definitions below are a shallow embedding of the Python sources:

* `src/master_control/models/workload.py` — data model (specs, statuses)
* `src/master_control/config/schema.py`   — `WorkloadConfig` and `to_spec`
* `src/master_control/engine/modes.py`    — run-mode strategies
* `src/master_control/engine/runner.py`   — supervision loop state machine
* `src/master_control/engine/scheduler.py`— cron tick / advance
* `src/master_control/engine/orchestrator.py` — stop_workload, reload_configs
* `src/master_control/config/loader.py`   — load_all error propagation
* `src/master_control/fleet/store.py`     — fleet SQLite store (rows as lists)
* `src/master_control/fleet/deployer.py`  — rolling deployer and rollback

Modelling conventions: Python `int` is `Int` (or `Nat` for counters that
start at 0 and are only incremented), Python `float` fields that are only
stored and copied are `Rat`, ISO-8601 timestamps are modelled by `Int`
(their string ordering agrees with chronological ordering for a fixed
format), SQL tables are lists of row structures, and a Python function
that can raise returns `Except String`.
-/

namespace MasterControl

/-! ### Data model — models/workload.py -/

/-- `RunMode` enum from models/workload.py. -/
inductive RunMode
  | schedule
  | forever
  | n_times
deriving DecidableEq, Repr

/-- `WorkloadStatus` enum from models/workload.py. -/
inductive WorkloadStatus
  | registered
  | starting
  | running
  | stopping
  | stopped
  | failed
  | completed
deriving DecidableEq, Repr

/-- Opaque value of a `params` entry (Python `Any`, copied verbatim). -/
inductive ParamValue
  | null
  | bool (b : Bool)
  | int (i : Int)
  | str (s : String)
deriving DecidableEq, Repr

/-- ISO-8601 timestamps, modelled by integers (string order = time order). -/
abbrev Timestamp := Int

/-- The frozen dataclass `WorkloadSpec` from models/workload.py.  Its fields
are exactly the twelve declared in the source; in particular it has *no*
`memory_limit_mb` and no `cpu_nice` field. -/
structure WorkloadSpec where
  name : String
  workload_type : String
  run_mode : RunMode
  module_path : String
  entry_point : String := "run"
  schedule : Option String := none
  max_runs : Option Int := none
  params : List (String × ParamValue) := []
  restart_delay_seconds : Rat := 5
  timeout_seconds : Option Rat := none
  tags : List String := []
  version : Option String := none
deriving DecidableEq, Repr

/-- The field names accepted by the `WorkloadSpec` dataclass constructor,
in declaration order (models/workload.py lines 29-44). -/
def workloadSpecFieldNames : List String :=
  ["name", "workload_type", "run_mode", "module_path", "entry_point",
   "schedule", "max_runs", "params", "restart_delay_seconds",
   "timeout_seconds", "tags", "version"]

/-! ### WorkloadConfig — config/schema.py -/

/-- The pydantic model `WorkloadConfig` from config/schema.py. -/
structure WorkloadConfig where
  name : String
  type : String
  run_mode : RunMode
  module : String
  version : Option String := none
  entry_point : String := "run"
  schedule : Option String := none
  max_runs : Option Int := none
  params : List (String × ParamValue) := []
  restart_delay : Rat := 5
  timeout : Option Rat := none
  tags : List String := []
  memory_limit_mb : Option Int := none
  cpu_nice : Option Int := none
deriving DecidableEq, Repr

/-- Python truthiness of an optional string (`None` and `""` are falsy). -/
def truthyStr : Option String → Bool
  | none => false
  | some s => !(s == "")

/-- Python truthiness of an optional int (`None` and `0` are falsy). -/
def truthyInt : Option Int → Bool
  | none => false
  | some v => !(v == 0)

/-- The `WorkloadConfig` validators from config/schema.py:
`validate_memory_limit`, `validate_cpu_nice` and `validate_mode_fields`.
Returns `true` iff pydantic validation succeeds. -/
def WorkloadConfig.valid (c : WorkloadConfig) : Bool :=
  (match c.memory_limit_mb with
    | none => true
    | some v => decide (0 < v)) &&
  (match c.cpu_nice with
    | none => true
    | some v => decide (-20 ≤ v ∧ v ≤ 19)) &&
  (!(c.run_mode == RunMode.schedule) || truthyStr c.schedule) &&
  (!(c.run_mode == RunMode.n_times) || truthyInt c.max_runs)

/-- The keyword-argument names passed to the `WorkloadSpec(...)` call inside
`WorkloadConfig.to_spec` (config/schema.py lines 84-100), in source order. -/
def toSpecKwargNames : List String :=
  ["name", "workload_type", "run_mode", "module_path", "entry_point",
   "schedule", "max_runs", "params", "restart_delay_seconds",
   "timeout_seconds", "tags", "version", "memory_limit_mb", "cpu_nice"]

/-- `WorkloadConfig.to_spec` from config/schema.py.  A Python dataclass
constructor raises `TypeError` when it receives a keyword argument that is
not a declared field, so the call is modelled by first checking every
keyword name against `workloadSpecFieldNames` and then building the value
from the recognised fields. -/
def WorkloadConfig.to_spec (c : WorkloadConfig) : Except String WorkloadSpec :=
  match toSpecKwargNames.find? (fun k => !(workloadSpecFieldNames.contains k)) with
  | some k => .error ("TypeError: unexpected keyword argument " ++ k)
  | none =>
    .ok { name := c.name
          workload_type := c.type
          run_mode := c.run_mode
          module_path := c.module
          entry_point := c.entry_point
          schedule := c.schedule
          max_runs := c.max_runs
          params := c.params
          restart_delay_seconds := c.restart_delay
          timeout_seconds := c.timeout
          tags := c.tags
          version := c.version }

/-- The configuration used by the repository test
`test_schema.py::test_memory_limit_valid`: a valid config with
`memory_limit_mb = 128`. -/
def memoryLimitTestConfig : WorkloadConfig :=
  { name := "test"
    type := "agent"
    run_mode := RunMode.forever
    module := "agents.test"
    memory_limit_mb := some 128 }

/-! ### Run-mode strategies — engine/modes.py -/

/-- Python `spec.max_runs or 1`: `None` and `0` are falsy and yield `1`. -/
def maxRunsOrOne : Option Int → Int
  | none => 1
  | some v => if v = 0 then 1 else v

/-- A run-mode strategy: `should_restart (max_runs) (run_count) (exit_code)`
and `is_complete (max_runs) (run_count)`.  The Python methods take the
whole spec but read only `spec.max_runs`, which is passed explicitly. -/
structure RunModeStrategy where
  should_restart : Option Int → Int → Int → Bool
  is_complete : Option Int → Int → Bool

/-- `ForeverStrategy` from engine/modes.py. -/
def ForeverStrategy : RunModeStrategy :=
  { should_restart := fun _ _ _ => true
    is_complete := fun _ _ => false }

/-- `NTimesStrategy` from engine/modes.py. -/
def NTimesStrategy : RunModeStrategy :=
  { should_restart := fun max_runs run_count _ => decide (run_count < maxRunsOrOne max_runs)
    is_complete := fun max_runs run_count => decide (maxRunsOrOne max_runs ≤ run_count) }

/-- `ScheduleStrategy` from engine/modes.py. -/
def ScheduleStrategy : RunModeStrategy :=
  { should_restart := fun _ _ _ => false
    is_complete := fun _ _ => true }

/-- `get_strategy` from engine/modes.py: dictionary lookup by run-mode tag,
raising `ValueError("Unknown run mode: ...")` for unknown tags. -/
def get_strategy (run_mode : String) : Except String RunModeStrategy :=
  if run_mode = "forever" then .ok ForeverStrategy
  else if run_mode = "n_times" then .ok NTimesStrategy
  else if run_mode = "schedule" then .ok ScheduleStrategy
  else .error ("Unknown run mode: " ++ run_mode)

/-! ### Supervision loop — engine/runner.py -/

/-- Snapshot of the runner fields driven by the supervision loop: the
`WorkloadState` status and `run_count`, the runner flag `_stop_requested`,
and `live`, which records whether the `_supervise` task is still iterating
its while-loop. -/
structure SuperviseState where
  status : WorkloadStatus
  run_count : Nat
  stop_requested : Bool
  live : Bool
deriving DecidableEq, Repr

/-- State right after `WorkloadRunner.start()` on a fresh runner:
`WorkloadState` starts with `run_count = 0`, and `start` sets the status
to `starting`, clears `_stop_requested` and spawns the supervision task. -/
def superviseInit : SuperviseState :=
  { status := .starting, run_count := 0, stop_requested := false, live := true }

/-- One iteration of the `while not self._stop_requested` supervision loop
(runner.py lines 124-199): launch the child, set status `running`, bump
`run_count`; `stopDuring` tells whether `stop()` set `_stop_requested`
while the child ran (checked at line 181); then the strategy decides:
`is_complete` sets status `completed` and breaks, otherwise
`should_restart` chooses between another iteration and leaving the loop.
`exit_code` is the child exit code handed to the strategy. -/
def superviseIter (strat : RunModeStrategy) (max_runs : Option Int)
    (stopDuring : Bool) (exit_code : Int) (s : SuperviseState) : SuperviseState :=
  if !s.live then s
  else if s.stop_requested then { s with live := false }
  else
    let rc := s.run_count + 1
    let stopR := s.stop_requested || stopDuring
    if stopR then
      { status := .running, run_count := rc, stop_requested := stopR, live := false }
    else if strat.is_complete max_runs (rc : Int) then
      { status := .completed, run_count := rc, stop_requested := stopR, live := false }
    else if strat.should_restart max_runs (rc : Int) exit_code then
      { status := .running, run_count := rc, stop_requested := stopR, live := true }
    else
      { status := .running, run_count := rc, stop_requested := stopR, live := false }

/-- States reachable during one supervision session of a fresh runner:
closed under loop iterations, a concurrent `stop()` request
(runner.py lines 60-61 set `_stop_requested` and status `stopping`), the
final assignment of `stop()` (line 79 sets `stopped` after cancelling the
supervision task), and the generic exception handler of the loop
(lines 203-205 set `failed` and leave the loop). -/
inductive SuperviseReach (strat : RunModeStrategy) (max_runs : Option Int) :
    SuperviseState → Prop
  | init : SuperviseReach strat max_runs superviseInit
  | iter (s : SuperviseState) (stopDuring : Bool) (exit_code : Int) :
      SuperviseReach strat max_runs s →
      SuperviseReach strat max_runs (superviseIter strat max_runs stopDuring exit_code s)
  | requestStop (s : SuperviseState) :
      SuperviseReach strat max_runs s →
      SuperviseReach strat max_runs { s with status := .stopping, stop_requested := true }
  | finishStop (s : SuperviseState) :
      SuperviseReach strat max_runs s →
      SuperviseReach strat max_runs
        { s with status := .stopped, stop_requested := true, live := false }
  | crash (s : SuperviseState) :
      SuperviseReach strat max_runs s →
      SuperviseReach strat max_runs { s with status := .failed, live := false }

/-- Strengthened invariant of the n-times supervision session: the run
count stays below `max_runs` while the loop is live, never exceeds it, and
equals it exactly when the session has completed. -/
theorem superviseReach_nTimes_invariant {m : Int} (hm : 1 ≤ m) {s : SuperviseState}
    (h : SuperviseReach NTimesStrategy (some m) s) :
    (s.run_count : Int) ≤ m ∧ (s.live = true → (s.run_count : Int) < m) ∧
      (s.status = .completed → (s.run_count : Int) = m) := by
  have hm0 : m ≠ 0 := by omega
  induction h with
  | init =>
    refine ⟨by simp [superviseInit]; omega, fun _ => by simp [superviseInit]; omega, ?_⟩
    intro hc
    simp [superviseInit] at hc
  | iter s stopDuring exit_code _ ih =>
    obtain ⟨h₁, h₂, h₃⟩ := ih
    simp only [superviseIter, NTimesStrategy, maxRunsOrOne, hm0, if_false]
    split
    · exact ⟨h₁, h₂, h₃⟩
    · split
      · exact ⟨h₁, by simp, h₃⟩
      · rename_i hlive hstop
        have hlive' : s.live = true := by
          revert hlive; cases s.live <;> simp
        have hlt : (s.run_count : Int) < m := h₂ hlive'
        split
        · refine ⟨by push_cast; omega, by simp, ?_⟩
          intro hc
          simp at hc
        · split
          · rename_i hcomp
            rw [decide_eq_true_iff] at hcomp
            refine ⟨by push_cast; omega, by simp, ?_⟩
            intro _
            push_cast
            omega
          · split
            · rename_i hrest
              rw [decide_eq_true_iff] at hrest
              refine ⟨by push_cast; omega, fun _ => by push_cast; omega, ?_⟩
              intro hc
              simp at hc
            · rename_i hcomp hrest
              rw [decide_eq_true_iff] at hrest
              refine ⟨by push_cast; omega, by simp, ?_⟩
              intro hc
              simp at hc
  | requestStop s _ ih =>
    obtain ⟨h₁, h₂, h₃⟩ := ih
    exact ⟨h₁, h₂, by intro hc; simp at hc⟩
  | finishStop s _ ih =>
    obtain ⟨h₁, h₂, h₃⟩ := ih
    exact ⟨h₁, by simp, by intro hc; simp at hc⟩
  | crash s _ ih =>
    obtain ⟨h₁, h₂, h₃⟩ := ih
    exact ⟨h₁, by simp, by intro hc; simp at hc⟩

/-! ### Fleet API models — api/models.py -/

/-- `SystemMetrics` from api/models.py (float fields, copied verbatim). -/
structure SystemMetrics where
  cpu_percent : Rat := 0
  memory_used_mb : Rat := 0
  memory_total_mb : Rat := 0
  disk_used_gb : Rat := 0
  disk_total_gb : Rat := 0
deriving DecidableEq, Repr

/-- `WorkloadInfo` from api/models.py: one workload row of a heartbeat. -/
structure WorkloadInfo where
  name : String
  type : String
  run_mode : String
  status : String
  pid : Option Int := none
  run_count : Int := 0
  last_started : Option String := none
  last_error : Option String := none
deriving DecidableEq, Repr

/-- `HeartbeatPayload` from api/models.py. -/
structure HeartbeatPayload where
  client_name : String
  timestamp : Timestamp
  deployed_version : Option String := none
  workloads : List WorkloadInfo := []
  system : SystemMetrics := {}
deriving DecidableEq, Repr

/-! ### Fleet state store — fleet/store.py -/

/-- A row of the `fleet_clients` table. -/
structure ClientRow where
  name : String
  host : String
  api_port : Int
  status : String
  last_seen : Option Timestamp := none
  cpu_percent : Option Rat := none
  memory_used_mb : Option Rat := none
  memory_total_mb : Option Rat := none
  disk_used_gb : Option Rat := none
  disk_total_gb : Option Rat := none
  deployed_version : Option String := none
  deployed_at : Option Timestamp := none
  updated_at : Option Timestamp := none
deriving DecidableEq, Repr

/-- A row of the `fleet_workloads` table. -/
structure WorkloadRow where
  client_name : String
  workload_name : String
  workload_type : String
  run_mode : String
  status : String
  pid : Option Int
  run_count : Int
  last_started : Option String
  last_error : Option String
  updated_at : Timestamp
deriving DecidableEq, Repr

/-- A row of the `deployments` table. -/
structure DeploymentRow where
  id : String
  version : String
  status : String
  batch_size : Int
  target_clients : List String
  created_at : Timestamp
  started_at : Option Timestamp := none
  completed_at : Option Timestamp := none
  error : Option String := none
  updated_at : Option Timestamp := none
deriving DecidableEq, Repr

/-- A row of the `deployment_clients` table. -/
structure DeploymentClientRow where
  deployment_id : String
  client_name : String
  batch_number : Int
  status : String
  previous_version : Option String := none
  started_at : Option Timestamp := none
  completed_at : Option Timestamp := none
  error : Option String := none
deriving DecidableEq, Repr

/-- The fleet database: the four tables as lists of rows. -/
structure FleetState where
  clients : List ClientRow := []
  workloads : List WorkloadRow := []
  deployments : List DeploymentRow := []
  deployment_clients : List DeploymentClientRow := []
deriving DecidableEq, Repr

/-- SQL `COALESCE(a, b)`: the first non-null argument. -/
def coalesce {α : Type} : Option α → Option α → Option α
  | some v, _ => some v
  | none, b => b

/-- The DO UPDATE arm of the `INSERT ... ON CONFLICT(name)` on
`fleet_clients` issued by `upsert_heartbeat` (store.py lines 89-99):
update host, metrics and `last_seen`, and — via
`COALESCE(excluded.deployed_version, deployed_version)` — replace the
stored `deployed_version` only when the payload carries a non-null one. -/
def heartbeatClientUpdate (p : HeartbeatPayload) (host : String) (now : Timestamp)
    (r : ClientRow) : ClientRow :=
  { r with
    host := host
    status := "online"
    last_seen := some now
    cpu_percent := some p.system.cpu_percent
    memory_used_mb := some p.system.memory_used_mb
    memory_total_mb := some p.system.memory_total_mb
    disk_used_gb := some p.system.disk_used_gb
    disk_total_gb := some p.system.disk_total_gb
    deployed_version := coalesce p.deployed_version r.deployed_version
    updated_at := some now }

/-- The whole client upsert: update the conflicting row, or insert a
fresh online row with the default api_port 9100. -/
def heartbeatClientUpsert (p : HeartbeatPayload) (host : String) (now : Timestamp)
    (clients : List ClientRow) : List ClientRow :=
  if clients.any (fun r => r.name == p.client_name) then
    clients.map (fun r =>
      if r.name == p.client_name then heartbeatClientUpdate p host now r else r)
  else
    clients ++
      [{ name := p.client_name
         host := host
         api_port := 9100
         status := "online"
         last_seen := some now
         cpu_percent := some p.system.cpu_percent
         memory_used_mb := some p.system.memory_used_mb
         memory_total_mb := some p.system.memory_total_mb
         disk_used_gb := some p.system.disk_used_gb
         disk_total_gb := some p.system.disk_total_gb
         deployed_version := p.deployed_version
         deployed_at := none
         updated_at := some now }]

/-- The row value written for one reported workload by the
`INSERT ... ON CONFLICT(client_name, workload_name) DO UPDATE` on
`fleet_workloads` (store.py lines 117-143); the update sets every
non-key column to the excluded value, so insert and update both yield
this row. -/
def heartbeatWorkloadRow (client : String) (now : Timestamp) (wl : WorkloadInfo) :
    WorkloadRow :=
  { client_name := client
    workload_name := wl.name
    workload_type := wl.type
    run_mode := wl.run_mode
    status := wl.status
    pid := wl.pid
    run_count := wl.run_count
    last_started := wl.last_started
    last_error := wl.last_error
    updated_at := now }

/-- Upsert of one reported workload into `fleet_workloads`. -/
def heartbeatWorkloadUpsert (client : String) (now : Timestamp) (wl : WorkloadInfo)
    (rows : List WorkloadRow) : List WorkloadRow :=
  if rows.any (fun r => r.client_name == client && r.workload_name == wl.name) then
    rows.map (fun r =>
      if r.client_name == client && r.workload_name == wl.name then
        heartbeatWorkloadRow client now wl
      else r)
  else
    rows ++ [heartbeatWorkloadRow client now wl]

/-- The deletion step of `upsert_heartbeat` (store.py lines 145-158):
remove this client's rows whose `workload_name` was not reported; with an
empty payload all of the client's rows are deleted. -/
def heartbeatDeleteStale (client : String) (reported : List String)
    (rows : List WorkloadRow) : List WorkloadRow :=
  if reported.isEmpty then
    rows.filter (fun r => !(r.client_name == client))
  else
    rows.filter (fun r =>
      !(r.client_name == client && !(reported.contains r.workload_name)))

/-- `FleetStateStore.upsert_heartbeat` (store.py lines 78-160): upsert the
client row, upsert every reported workload row, then delete the client's
rows that were not reported; all in one transaction. -/
def upsert_heartbeat (p : HeartbeatPayload) (host : String) (now : Timestamp)
    (st : FleetState) : FleetState :=
  let clients := heartbeatClientUpsert p host now st.clients
  let ws := p.workloads.foldl
    (fun rows wl => heartbeatWorkloadUpsert p.client_name now wl rows) st.workloads
  let ws := heartbeatDeleteStale p.client_name (p.workloads.map (·.name)) ws
  { st with clients := clients, workloads := ws }

/-- The WHERE clause of `mark_stale_clients` (store.py lines 250-253):
`status = 'online' AND last_seen < cutoff` (SQL NULL comparisons are
false). -/
def isStaleRow (cutoff : Timestamp) (r : ClientRow) : Bool :=
  r.status == "online" &&
    (match r.last_seen with
      | some t => decide (t < cutoff)
      | none => false)

/-- `FleetStateStore.mark_stale_clients` (store.py lines 246-256): flip
matching rows to offline and return the number of updated rows
(`cursor.rowcount`).  `pyNow` is the Python clock used for the cutoff,
`sqlNow` the SQL `datetime('now')` written to `updated_at`. -/
def mark_stale_clients (threshold : Int) (pyNow sqlNow : Timestamp)
    (clients : List ClientRow) : List ClientRow × Nat :=
  let cutoff := pyNow - threshold
  (clients.map (fun r =>
      if isStaleRow cutoff r then { r with status := "offline", updated_at := some sqlNow }
      else r),
   (clients.filter (isStaleRow cutoff)).length)

/-- `FleetStateStore.resolve_client_endpoint` (store.py lines 258-268). -/
def resolve_client_endpoint (st : FleetState) (name : String) : Option (String × Int) :=
  (st.clients.find? (fun r => r.name == name)).map (fun r => (r.host, r.api_port))

/-- The UPDATE of one `deployments` row performed by
`FleetStateStore.update_deployment_status` (store.py lines 349-369):
`in_progress` stamps `started_at`; the terminal statuses `completed`,
`failed` and `rolled_back` stamp `completed_at` and store the error; any
other status stores the error only.  No branch inspects the current
status. -/
def updateDeploymentRow (status : String) (error : Option String)
    (now sqlNow : Timestamp) (r : DeploymentRow) : DeploymentRow :=
  if status == "in_progress" then
    { r with status := status, started_at := some now, updated_at := some sqlNow }
  else if status == "completed" || status == "failed" || status == "rolled_back" then
    { r with status := status, completed_at := some now, error := error,
             updated_at := some sqlNow }
  else
    { r with status := status, error := error, updated_at := some sqlNow }

/-- `FleetStateStore.update_deployment_status` applied to the table. -/
def update_deployment_status (deployment_id status : String) (error : Option String)
    (now sqlNow : Timestamp) (rows : List DeploymentRow) : List DeploymentRow :=
  rows.map (fun r =>
    if r.id == deployment_id then updateDeploymentRow status error now sqlNow r else r)

/-- The UPDATE of one `deployment_clients` row performed by
`FleetStateStore.update_deployment_client_status` (store.py lines
371-398): `deploying` stamps `started_at`; `healthy`, `failed` and
`rolled_back` stamp `completed_at` and the error; other statuses store
the error only. -/
def updateDeploymentClientRow (status : String) (error : Option String)
    (now : Timestamp) (r : DeploymentClientRow) : DeploymentClientRow :=
  if status == "deploying" then
    { r with status := status, started_at := some now }
  else if status == "healthy" || status == "failed" || status == "rolled_back" then
    { r with status := status, completed_at := some now, error := error }
  else
    { r with status := status, error := error }

/-- `FleetStateStore.update_deployment_client_status` applied to the table. -/
def update_deployment_client_status (deployment_id client_name status : String)
    (error : Option String) (now : Timestamp) (rows : List DeploymentClientRow) :
    List DeploymentClientRow :=
  rows.map (fun r =>
    if r.deployment_id == deployment_id && r.client_name == client_name then
      updateDeploymentClientRow status error now r
    else r)

/-! ### Rolling deployer — fleet/deployer.py -/

/-- `RollingDeployer.cancel_deployment` (deployer.py lines 76-88): cancel
the background task when it is still running, then — unconditionally,
whether or not the task had already finished — write
`update_deployment_status(deployment_id, "failed", error="Cancelled by
user")`. Only the store effect is modelled; the task-cancel branch does
not touch the table. -/
def cancel_deployment (deployment_id : String) (now sqlNow : Timestamp)
    (rows : List DeploymentRow) : List DeploymentRow :=
  update_deployment_status deployment_id "failed" (some "Cancelled by user")
    now sqlNow rows

/-- Outcome of one batch inside `_execute_deployment`: the file push
failed (step 1), the reload failed (step 2), the health gate timed out
(step 3), or the batch succeeded. -/
inductive BatchOutcome
  | pushFailed
  | reloadFailed
  | unhealthy
  | ok
deriving DecidableEq, Repr

/-- The sequence of deployment-status writes issued by the batch loop of
`_execute_deployment` (deployer.py lines 100-205) after the initial
`in_progress` write: successful batches write no deployment status; the
first failing batch writes either `failed` or — with auto-rollback —
`rolling_back` then `rolled_back` (in `_rollback`); after all batches
succeed the loop writes `completed`. -/
def executeStatusWrites (auto_rollback : Bool) : List BatchOutcome → List String
  | [] => ["completed"]
  | .ok :: rest => executeStatusWrites auto_rollback rest
  | _ :: _ => if auto_rollback then ["rolling_back", "rolled_back"] else ["failed"]

/-- Full status trace of one deployment execution, starting from the
`in_progress` write at deployer.py line 97. -/
def executeDeploymentTrace (auto_rollback : Bool) (outcomes : List BatchOutcome) :
    List String :=
  "in_progress" :: executeStatusWrites auto_rollback outcomes

/-- The deployment status-transition graph of the specification:
pending → in_progress → \x7bcompleted, failed, rolling_back\x7d and
rolling_back → rolled_back. -/
def deploymentEdge : String → String → Bool
  | "pending", "in_progress" => true
  | "in_progress", "completed" => true
  | "in_progress", "failed" => true
  | "in_progress", "rolling_back" => true
  | "rolling_back", "rolled_back" => true
  | _, _ => false

/-- The terminal deployment statuses. -/
def terminalDeploymentStatus (s : String) : Bool :=
  s == "completed" || s == "failed" || s == "rolled_back"

/-- External side effects attempted by the deployer for one client. -/
inductive DeployAction
  | pushFiles (client : String) (version : String)
  | reloadCall (client : String)
deriving DecidableEq, Repr

/-- The client a deploy action addresses. -/
def DeployAction.client : DeployAction → String
  | .pushFiles c _ => c
  | .reloadCall c => c

/-- The selection filter of `_rollback` (deployer.py lines 307-312):
rows in batches up to the failed one whose status is `deployed`,
`healthy`, `deploying` or `failed`. -/
def rollbackSelect (failed_batch : Int) (c : DeploymentClientRow) : Bool :=
  decide (c.batch_number ≤ failed_batch) &&
    (c.status == "deployed" || c.status == "healthy" ||
      c.status == "deploying" || c.status == "failed")

/-- The external actions `_rollback` attempts for one selected client
(deployer.py lines 314-353): with a recorded `previous_version` it
re-runs the deploy script with that version and, when the client's
endpoint resolves, calls its reload endpoint (failures are logged and
swallowed); with a null `previous_version` it attempts nothing. -/
def rollbackClientActions (st : FleetState) (c : DeploymentClientRow) :
    List DeployAction :=
  match c.previous_version with
  | none => []
  | some v =>
    DeployAction.pushFiles c.client_name v ::
      (match resolve_client_endpoint st c.client_name with
        | some _ => [DeployAction.reloadCall c.client_name]
        | none => [])

/-- `RollingDeployer._rollback` (deployer.py lines 297-359): mark the
deployment `rolling_back`, select the client rows of batches up to the
failed one with status in \x7bdeployed, healthy, deploying, failed\x7d,
attempt the per-client rollback actions, mark each selected row
`rolled_back` regardless of those actions, and finish the deployment as
`rolled_back`.  Returns the new store state and the attempted external
actions.  `fleet_clients` is never written. -/
def rollback (deployment_id : String) (failed_batch : Int) (now : Timestamp)
    (st : FleetState) : FleetState × List DeployAction :=
  let st1 := { st with
    deployments := update_deployment_status deployment_id "rolling_back" none
      now now st.deployments }
  let clients := st1.deployment_clients.filter
    (fun c => c.deployment_id == deployment_id)
  let to_rollback := clients.filter (rollbackSelect failed_batch)
  let actions := to_rollback.flatMap (rollbackClientActions st1)
  let dcs := to_rollback.foldl
    (fun rows c =>
      update_deployment_client_status deployment_id c.client_name "rolled_back"
        none now rows)
    st1.deployment_clients
  let st2 := { st1 with deployment_clients := dcs }
  ({ st2 with
     deployments := update_deployment_status deployment_id "rolled_back" none
       now now st2.deployments },
   actions)

/-! ### Cron scheduler — engine/scheduler.py -/

/-- A `ScheduleEntry`: the pending `next_run` plus the croniter state,
modelled as the stream `future` of the iterator's upcoming trigger times
(`future 0` is what the next `get_next` call returns).  The callback is
irrelevant to the timing claims and omitted. -/
structure ScheduleEntryM where
  next_run : Timestamp
  future : Nat → Timestamp

/-- `ScheduleEntry.advance` (scheduler.py lines 30-32):
`next_run = self._cron.get_next(datetime)` — one step of the cron
iterator, computed from the iterator state (not from the wall clock). -/
def ScheduleEntryM.advance (e : ScheduleEntryM) : ScheduleEntryM :=
  { next_run := e.future 0, future := fun n => e.future (n + 1) }

/-- The per-entry body of one scheduler tick (`ScheduleManager._run`,
scheduler.py lines 85-94): when `now >= next_run`, invoke the callback
(exceptions swallowed) and advance the entry once; otherwise leave it
alone.  Returns the new entry and whether the callback fired. -/
def tickEntry (now : Timestamp) (e : ScheduleEntryM) : ScheduleEntryM × Bool :=
  if e.next_run ≤ now then (e.advance, true) else (e, false)

/-- A minute-cron entry two periods behind the clock: normal cadence
values 60, 120, 180, ... with `next_run` still at 60 while `now = 250`
(a clock jump or a long callback left it behind). -/
def cronBehindEntry : ScheduleEntryM :=
  { next_run := 60, future := fun n => 120 + 60 * n }

/-! ### Orchestrator — engine/orchestrator.py, config/loader.py -/

/-- One step of the `load_all` loop: extend the accumulated specs with
one file's specs, or propagate the first raised error. -/
def loadAllStep (acc res : Except String (List WorkloadSpec)) :
    Except String (List WorkloadSpec) := do
  let specs ← acc
  let more ← res
  pure (specs ++ more)

/-- `ConfigLoader.load_all` (loader.py lines 33-50) over the per-file
outcomes of `load_file`: the specs of all files are concatenated; the
first `ConfigError` raised by any file propagates and aborts the load. -/
def load_all (fileResults : List (Except String (List WorkloadSpec))) :
    Except String (List WorkloadSpec) :=
  fileResults.foldl loadAllStep (.ok [])

/-- The registry dictionary (`WorkloadRegistry._specs`): name → spec in
insertion order. -/
abbrev Registry := List (String × WorkloadSpec)

/-- `WorkloadRegistry.unregister`: delete the entry for `name`. -/
def registryUnregister (reg : Registry) (name : String) : Registry :=
  reg.filter (fun kv => !(kv.1 == name))

/-- `WorkloadRegistry.register`: insert a new name (dict insertion
appends). -/
def registryRegister (reg : Registry) (spec : WorkloadSpec) : Registry :=
  reg ++ [(spec.name, spec)]

/-- The per-reload summary returned by `reload_configs`. -/
structure ReloadSummary where
  added : List String
  removed : List String
  restarted : List String
  unchanged : List String
deriving DecidableEq, Repr

/-- The reconciliation step of `Orchestrator.reload_configs`
(orchestrator.py lines 182-239) once `load_all` has succeeded: diff the
new specs against the registry by name, unregister removed names,
register added ones, and re-register changed ones; unchanged names are
left alone.  Runner and scheduler bookkeeping is not part of the
registry and omitted. -/
def reconcileRegistry (reg : Registry) (new_specs : List WorkloadSpec) :
    Registry × ReloadSummary :=
  let sortNames : List String → List String := fun l => l.mergeSort (fun a b => a ≤ b)
  let new_names := (new_specs.map (·.name)).eraseDups
  let old_names := (reg.map (·.1)).eraseDups
  let specOf : String → Option WorkloadSpec := fun n =>
    (new_specs.reverse.find? (fun s => s.name == n)).map id
  let added := sortNames (new_names.filter (fun n => !(old_names.contains n)))
  let removed := sortNames (old_names.filter (fun n => !(new_names.contains n)))
  let common := sortNames (old_names.filter (fun n => new_names.contains n))
  let reg := removed.foldl registryUnregister reg
  let reg := added.foldl
    (fun r n => match specOf n with
      | some s => registryRegister r s
      | none => r)
    reg
  let step : Registry × List String × List String → String →
      Registry × List String × List String := fun (r, restarted, unchanged) n =>
    match (r.find? (fun kv => kv.1 == n)).map (·.2), specOf n with
    | some old_spec, some new_spec =>
      if old_spec ≠ new_spec then
        (registryRegister (registryUnregister r n) new_spec, restarted ++ [n], unchanged)
      else
        (r, restarted, unchanged ++ [n])
    | _, _ => (r, restarted, unchanged)
  let (reg, restarted, unchanged) := common.foldl step (reg, [], [])
  (reg, { added := added, removed := removed, restarted := restarted,
          unchanged := unchanged })

/-- `Orchestrator.reload_configs` (orchestrator.py lines 175-239): the
method calls `loader.load_all()` before touching any state, so a load
failure propagates the `ConfigError` with the registry untouched;
otherwise the registry is reconciled and the four-list summary is
returned. -/
def reload_configs (reg : Registry)
    (loadResult : Except String (List WorkloadSpec)) :
    Registry × Except String ReloadSummary :=
  match loadResult with
  | .error e => (reg, .error e)
  | .ok new_specs =>
    let (reg, summary) := reconcileRegistry reg new_specs
    (reg, .ok summary)

/-- The mutable runtime state of one workload (`WorkloadState` in
models/workload.py), as read through a runner. -/
structure WorkloadStateM where
  status : WorkloadStatus
  pid : Option Int := none
  run_count : Nat := 0
  last_started : Option Timestamp := none
  last_stopped : Option Timestamp := none
  last_heartbeat : Option Timestamp := none
  last_error : Option String := none
deriving DecidableEq, Repr

/-- `WorkloadRunner.is_running` (runner.py lines 44-46):
status ∈ \x7brunning, starting\x7d. -/
def is_running (st : WorkloadStateM) : Bool :=
  st.status == WorkloadStatus.running || st.status == WorkloadStatus.starting

/-- The effect of `WorkloadRunner.stop` on the runner state
(runner.py lines 79-81): status `stopped`, stamp `last_stopped`, clear
the pid. -/
def runnerStop (now : Timestamp) (st : WorkloadStateM) : WorkloadStateM :=
  { st with status := WorkloadStatus.stopped, last_stopped := some now, pid := none }

/-- `Orchestrator.stop_workload` (orchestrator.py lines 142-148) over the
`_runners` mapping: when no runner exists for the name, or its runner is
not running, return the "not running" message and touch nothing;
otherwise stop the runner. -/
def stop_workload (name : String) (now : Timestamp)
    (runners : List (String × WorkloadStateM)) :
    List (String × WorkloadStateM) × String :=
  match runners.find? (fun kv => kv.1 == name) with
  | none => (runners, "Workload \x27" ++ name ++ "\x27 is not running")
  | some kv =>
    if !(is_running kv.2) then
      (runners, "Workload \x27" ++ name ++ "\x27 is not running")
    else
      (runners.map (fun kv => if kv.1 == name then (kv.1, runnerStop now kv.2) else kv),
       "Stopped \x27" ++ name ++ "\x27")

/-! ### Claim theorems C1-C3 -/

/-- Claim C1 (code_bug): `WorkloadConfig.to_spec` is claimed to return a
`WorkloadSpec` carrying `memory_limit_mb` and `cpu_nice`, but the
`WorkloadSpec` dataclass declares no such fields, so the constructor call
inside `to_spec` raises `TypeError` for every configuration — including
the valid config used by the repository test
`test_schema.py::test_memory_limit_valid`. -/
theorem C1_to_spec_raises_typeerror :
    memoryLimitTestConfig.valid = true ∧
    memoryLimitTestConfig.to_spec
      = .error "TypeError: unexpected keyword argument memory_limit_mb" ∧
    ("memory_limit_mb" ∈ toSpecKwargNames ∧
      "memory_limit_mb" ∉ workloadSpecFieldNames) ∧
    ∀ c : WorkloadConfig,
      c.to_spec = .error "TypeError: unexpected keyword argument memory_limit_mb" :=
  ⟨by decide, rfl, by decide, fun _ => rfl⟩

/-- Claim C2: in an n-times supervision session with `max_runs = m ≥ 1`,
`run_count` never exceeds `m`, and whenever the status is `completed` the
run count equals `m` exactly. -/
theorem C2_ntimes_run_count_invariant (m : Int) (hm : 1 ≤ m) (s : SuperviseState)
    (h : SuperviseReach NTimesStrategy (some m) s) :
    (s.run_count : Int) ≤ m ∧ (s.status = .completed → (s.run_count : Int) = m) :=
  ⟨(superviseReach_nTimes_invariant hm h).1,
   (superviseReach_nTimes_invariant hm h).2.2⟩

/-- Witness for C2: one iteration with `max_runs = 1` completes the
workload at `run_count = 1`. -/
theorem C2_ntimes_run_count_invariant_witness :
    ((superviseIter NTimesStrategy (some 1) false 0 superviseInit).run_count : Int) ≤ 1 ∧
      ((superviseIter NTimesStrategy (some 1) false 0 superviseInit).status = .completed →
        ((superviseIter NTimesStrategy (some 1) false 0 superviseInit).run_count : Int) = 1) :=
  C2_ntimes_run_count_invariant 1 (by decide) _
    (SuperviseReach.iter _ false 0 SuperviseReach.init)

/-- Claim C3: `get_strategy` realises the run-mode policy table — forever
always restarts and never completes; n-times restarts iff
`run_count < max_runs` and completes iff `run_count ≥ max_runs`; schedule
never restarts and always completes; the exit code never affects any
answer; unknown run-mode tags fail with an unknown-run-mode error. -/
theorem C3_strategy_table :
    (get_strategy "forever" = .ok ForeverStrategy ∧
      ∀ mr rc ec, ForeverStrategy.should_restart mr rc ec = true ∧
        ForeverStrategy.is_complete mr rc = false) ∧
    (get_strategy "n_times" = .ok NTimesStrategy ∧
      ∀ m rc ec, (0 : Int) < m →
        (NTimesStrategy.should_restart (some m) rc ec = decide (rc < m) ∧
          NTimesStrategy.is_complete (some m) rc = decide (m ≤ rc))) ∧
    (get_strategy "schedule" = .ok ScheduleStrategy ∧
      ∀ mr rc ec, ScheduleStrategy.should_restart mr rc ec = false ∧
        ScheduleStrategy.is_complete mr rc = true) ∧
    (∀ mr rc ec ec',
      ForeverStrategy.should_restart mr rc ec = ForeverStrategy.should_restart mr rc ec' ∧
      NTimesStrategy.should_restart mr rc ec = NTimesStrategy.should_restart mr rc ec' ∧
      ScheduleStrategy.should_restart mr rc ec = ScheduleStrategy.should_restart mr rc ec') ∧
    (∀ s, s ≠ "forever" → s ≠ "n_times" → s ≠ "schedule" →
      get_strategy s = .error ("Unknown run mode: " ++ s)) := by
  refine ⟨⟨rfl, fun mr rc ec => ⟨rfl, rfl⟩⟩, ⟨rfl, ?_⟩, ⟨rfl, fun mr rc ec => ⟨rfl, rfl⟩⟩,
    fun mr rc ec ec' => ⟨rfl, rfl, rfl⟩, ?_⟩
  · intro m rc ec hm
    have hm0 : m ≠ 0 := by omega
    constructor
    · simp [NTimesStrategy, maxRunsOrOne, hm0]
    · simp [NTimesStrategy, maxRunsOrOne, hm0]
  · intro s h1 h2 h3
    simp [get_strategy, h1, h2, h3]

/-- Witness for C3 at concrete inputs: n-times with `max_runs = 3`
restarts at `run_count = 2`, completes at `run_count = 3`, and the tag
"cron" is rejected. -/
theorem C3_strategy_table_witness :
    NTimesStrategy.should_restart (some 3) 2 0 = true ∧
      NTimesStrategy.is_complete (some 3) 3 = true ∧
      get_strategy "cron" = .error "Unknown run mode: cron" := by
  have h := C3_strategy_table
  refine ⟨?_, ?_, ?_⟩
  · rw [(h.2.1.2 3 2 0 (by decide)).1]
    decide
  · rw [(h.2.1.2 3 3 0 (by decide)).2]
    decide
  · exact (h.2.2.2.2 "cron" (by decide) (by decide) (by decide)).trans rfl

/-! ### Claims C5 and C6 -/

/-- Claim C5 counterexample: a tick of the scheduler advances a due entry
exactly once, so an entry more than one cron period behind the clock
still has `next_run ≤ now` after the tick — the loop does not advance
until `next_run > now`.  Here the minute-cron entry `cronBehindEntry` is
due at 60, the clock reads 250, and after the tick `next_run = 120 ≤ 250`. -/
theorem C5_counterexample :
    (tickEntry 250 cronBehindEntry).2 = true ∧
      (tickEntry 250 cronBehindEntry).1.next_run = 120 ∧
      ¬ (250 < (tickEntry 250 cronBehindEntry).1.next_run) := by
  refine ⟨by decide, by decide, by decide⟩

/-- Claim C5 amended: a scheduler tick fires a due entry at most once and
advances `next_run` by exactly one cron step (taken from the iterator, so
cadence is preserved); `next_run > now` holds after the tick whenever the
entry was at most one cron step behind, but an entry further behind keeps
`next_run ≤ now` and fires again on later ticks. -/
theorem C5_tick_advances_once (now : Timestamp) (e : ScheduleEntryM) :
    (tickEntry now e).2 = decide (e.next_run ≤ now) ∧
      (tickEntry now e).1.next_run =
        (if e.next_run ≤ now then e.future 0 else e.next_run) ∧
      (e.next_run ≤ now → now < e.future 0 → now < (tickEntry now e).1.next_run) := by
  by_cases h : e.next_run ≤ now
  · refine ⟨by simp [tickEntry, h], by simp [tickEntry, h, ScheduleEntryM.advance], ?_⟩
    intro _ h2
    simpa [tickEntry, h, ScheduleEntryM.advance] using h2
  · refine ⟨by simp [tickEntry, h], by simp [tickEntry, h], ?_⟩
    intro hc
    exact absurd hc h

/-- Witness for the amended C5: an entry one period behind fires and ends
with `next_run > now`. -/
theorem C5_tick_advances_once_witness :
    (tickEntry 100 (ScheduleEntryM.mk 60 (fun n => 120 + 60 * n))).2 = true ∧
      100 < (tickEntry 100 (ScheduleEntryM.mk 60 (fun n => 120 + 60 * n))).1.next_run := by
  have h := C5_tick_advances_once 100 (ScheduleEntryM.mk 60 (fun n => 120 + 60 * n))
  refine ⟨?_, h.2.2 (by decide) (by norm_num)⟩
  rw [h.1]
  decide

/-- A deployment that has already reached the terminal status
`completed`. -/
def completedDeploymentRow : DeploymentRow :=
  { id := "d1", version := "v2", status := "completed", batch_size := 1,
    target_clients := ["pi-1"], created_at := 0, started_at := some 1,
    completed_at := some 2, error := none, updated_at := some 2 }

/-- Claim C6 counterexample: `cancel_deployment` invoked on a deployment
whose background task has already finished writes status `failed`
unconditionally, moving the deployment out of the terminal status
`completed`. -/
theorem C6_counterexample :
    terminalDeploymentStatus completedDeploymentRow.status = true ∧
      (cancel_deployment "d1" 3 3 [completedDeploymentRow]).map (fun r => r.status)
        = ["failed"] ∧
      (cancel_deployment "d1" 3 3 [completedDeploymentRow]).map (fun r => r.error)
        = [some "Cancelled by user"] := by
  refine ⟨by decide, by decide, by decide⟩

/-- The batch loop of `_execute_deployment` issues exactly one of three
status-write suffixes after `in_progress`. -/
theorem executeStatusWrites_cases (ar : Bool) (outcomes : List BatchOutcome) :
    executeStatusWrites ar outcomes = ["completed"] ∨
      executeStatusWrites ar outcomes = ["failed"] ∨
      executeStatusWrites ar outcomes = ["rolling_back", "rolled_back"] := by
  induction outcomes with
  | nil => exact Or.inl rfl
  | cons o rest ih =>
    cases o with
    | ok => simpa [executeStatusWrites] using ih
    | pushFailed =>
      cases ar
      · exact Or.inr (Or.inl (by simp [executeStatusWrites]))
      · exact Or.inr (Or.inr (by simp [executeStatusWrites]))
    | reloadFailed =>
      cases ar
      · exact Or.inr (Or.inl (by simp [executeStatusWrites]))
      · exact Or.inr (Or.inr (by simp [executeStatusWrites]))
    | unhealthy =>
      cases ar
      · exact Or.inr (Or.inl (by simp [executeStatusWrites]))
      · exact Or.inr (Or.inr (by simp [executeStatusWrites]))

/-- Claim C6 amended: the status writes of the background execution task
follow the monotonic graph pending → in_progress → \x7bcompleted, failed,
rolling_back → rolled_back\x7d, but `cancel_deployment` writes `failed`
with error "Cancelled by user" to its deployment regardless of the
current status — including the terminal ones — and leaves every other
deployment row unchanged. -/
theorem C6_status_graph_except_cancel (ar : Bool) (outcomes : List BatchOutcome)
    (deployment_id : String) (now sqlNow : Timestamp) (rows : List DeploymentRow) :
    List.Chain' (fun a b => deploymentEdge a b = true)
      ("pending" :: executeDeploymentTrace ar outcomes) ∧
      ∀ r ∈ cancel_deployment deployment_id now sqlNow rows,
        (r.id = deployment_id → r.status = "failed" ∧ r.error = some "Cancelled by user") ∧
        (r.id ≠ deployment_id → r ∈ rows) := by
  constructor
  · unfold executeDeploymentTrace
    rcases executeStatusWrites_cases ar outcomes with h | h | h <;> rw [h] <;>
      simp only [List.chain'_cons, List.chain'_singleton, and_true] <;> decide
  · intro r hr
    unfold cancel_deployment update_deployment_status at hr
    obtain ⟨r₀, hr₀, hmap⟩ := List.mem_map.mp hr
    by_cases hid : r₀.id == deployment_id
    · rw [if_pos hid] at hmap
      subst hmap
      constructor
      · intro _
        exact ⟨by simp [updateDeploymentRow], by simp [updateDeploymentRow]⟩
      · intro hne
        exact absurd (by simpa [updateDeploymentRow] using beq_iff_eq.mp hid) hne
    · rw [if_neg hid] at hmap
      subst hmap
      exact ⟨fun he => absurd (beq_iff_eq.mpr he) hid, fun _ => hr₀⟩

/-- Witness for the amended C6: cancelling a deployment in any store
state writes `failed` to its row. -/
theorem C6_status_graph_except_cancel_witness :
    (updateDeploymentRow "failed" (some "Cancelled by user") 3 3
        completedDeploymentRow).status = "failed" ∧
      (updateDeploymentRow "failed" (some "Cancelled by user") 3 3
        completedDeploymentRow).error = some "Cancelled by user" := by
  have h := C6_status_graph_except_cancel true [] "d1" 3 3 [completedDeploymentRow]
  have hmem : updateDeploymentRow "failed" (some "Cancelled by user") 3 3
      completedDeploymentRow ∈ cancel_deployment "d1" 3 3 [completedDeploymentRow] := by
    decide
  exact (h.2 _ hmem).1 (by decide)

/-! ### Claims C7 and C9 -/

/-- Once the load loop holds an error it keeps that error. -/
theorem loadAllStep_foldl_error (fs : List (Except String (List WorkloadSpec)))
    (e : String) : fs.foldl loadAllStep (Except.error e) = Except.error e := by
  induction fs with
  | nil => rfl
  | cons f rest ih => exact ih

/-- If any file result is an error, the whole load fails, whatever specs
have been accumulated. -/
theorem load_all_fails_of_bad_file (fs : List (Except String (List WorkloadSpec)))
    (h : ∃ f ∈ fs, ∃ e, f = Except.error e) (l : List WorkloadSpec) :
    ∃ e, fs.foldl loadAllStep (Except.ok l) = Except.error e := by
  induction fs generalizing l with
  | nil => simp at h
  | cons f rest ih =>
    cases hf : f with
    | error e =>
      refine ⟨e, ?_⟩
      have h1 : (Except.error e :: rest).foldl loadAllStep (Except.ok l)
          = rest.foldl loadAllStep (Except.error e) := rfl
      rw [h1]
      exact loadAllStep_foldl_error rest e
    | ok l' =>
      obtain ⟨g, hg, e, hge⟩ := h
      rcases List.mem_cons.mp hg with rfl | hgrest
      · rw [hf] at hge
        exact absurd hge (by simp)
      · have step : (Except.ok l' :: rest).foldl loadAllStep (Except.ok l)
            = rest.foldl loadAllStep (Except.ok (l ++ l')) := rfl
        rw [step]
        exact ih ⟨g, hgrest, e, hge⟩ (l ++ l')

/-- Claim C7: when loading any config file fails, `reload_configs`
surfaces the `ConfigError` and the registry is exactly what it was —
`load_all` runs before any mutation (orchestrator.py line 181), so no
workload is added, removed or replaced. -/
theorem C7_reload_error_leaves_registry (reg : Registry)
    (fileResults : List (Except String (List WorkloadSpec)))
    (h : ∃ f ∈ fileResults, ∃ e, f = Except.error e) :
    ∃ e, load_all fileResults = Except.error e ∧
      reload_configs reg (load_all fileResults) = (reg, Except.error e) := by
  obtain ⟨e, he⟩ := load_all_fails_of_bad_file fileResults h []
  exact ⟨e, he, by rw [show load_all fileResults = Except.error e from he]; rfl⟩

/-- A sample spec used by witnesses. -/
def demoSpec : WorkloadSpec :=
  { name := "svc", workload_type := "service", run_mode := RunMode.forever,
    module_path := "agents.svc" }

/-- Witness for C7: one file with a parse error leaves a one-entry
registry untouched and surfaces the error. -/
theorem C7_reload_error_leaves_registry_witness :
    reload_configs [("svc", demoSpec)] (load_all [Except.error "parse error"])
      = ([("svc", demoSpec)], Except.error "parse error") := by
  obtain ⟨e, h1, h2⟩ := C7_reload_error_leaves_registry [("svc", demoSpec)]
    [Except.error "parse error"] ⟨_, by simp, "parse error", rfl⟩
  have h3 : (Except.error "parse error" : Except String (List WorkloadSpec))
      = Except.error e := by
    rw [← h1]
    rfl
  cases h3
  exact h2

/-- The "not running" message of `stop_workload`, split around its
"not running" suffix. -/
theorem notRunningMessage_split (name : String) :
    "Workload \x27" ++ name ++ "\x27 is not running"
      = ("Workload \x27" ++ name ++ "\x27 is ") ++ "not running" ++ "" := by
  rw [String.append_empty, String.append_assoc ("Workload \x27" ++ name)]
  rw [show ("\x27 is " ++ "not running" : String) = "\x27 is not running" from by decide]

/-- Claim C9: calling `stop_workload` for a name with no runner, or whose
runner is not in \x7bstarting, running\x7d, returns a message containing
"not running" and leaves every runner state — status, pid, run_count and
timestamps — unchanged. -/
theorem C9_stop_not_running (name : String) (now : Timestamp)
    (runners : List (String × WorkloadStateM))
    (h : ∀ kv ∈ runners, kv.1 = name → is_running kv.2 = false) :
    (stop_workload name now runners).1 = runners ∧
      ∃ pre post, (stop_workload name now runners).2 = pre ++ "not running" ++ post := by
  cases hf : runners.find? (fun kv => kv.1 == name) with
  | none =>
    unfold stop_workload
    rw [hf]
    exact ⟨rfl, "Workload \x27" ++ name ++ "\x27 is ", "", notRunningMessage_split name⟩
  | some kv =>
    have hp := List.find?_some hf
    have hmem : kv ∈ runners := List.mem_of_find?_eq_some hf
    have hnr : is_running kv.2 = false := h kv hmem (by simpa using hp)
    unfold stop_workload
    rw [hf]
    simp only [hnr, Bool.not_false, if_true]
    exact ⟨by trivial, "Workload \x27" ++ name ++ "\x27 is ", "", notRunningMessage_split name⟩

/-- Witness for C9: stopping an already stopped workload. -/
theorem C9_stop_not_running_witness :
    (stop_workload "w1" 5 [("w1", { status := WorkloadStatus.stopped })]).1
        = [("w1", { status := WorkloadStatus.stopped })] ∧
      ∃ pre post,
        (stop_workload "w1" 5 [("w1", { status := WorkloadStatus.stopped })]).2
          = pre ++ "not running" ++ post :=
  C9_stop_not_running "w1" 5 _ (by decide)

/-! ### Claim C8 -/

/-- Semantic reading of the stale WHERE clause. -/
theorem isStaleRow_iff (cutoff : Timestamp) (r : ClientRow) :
    isStaleRow cutoff r = true ↔
      (r.status = "online" ∧ ∃ t, r.last_seen = some t ∧ t < cutoff) := by
  unfold isStaleRow
  cases h : r.last_seen with
  | none => simp [h]
  | some t => simp [h]

/-- For each row, the online → offline transition happens exactly when the
stale clause matched. -/
theorem stale_flag_eq_transition (cutoff sqlNow : Timestamp) (r : ClientRow) :
    ((r.status == "online") &&
        ((if isStaleRow cutoff r then
            { r with status := "offline", updated_at := some sqlNow }
          else r).status == "offline"))
      = isStaleRow cutoff r := by
  by_cases h : isStaleRow cutoff r = true
  · have hon : r.status = "online" := ((isStaleRow_iff cutoff r).mp h).1
    simp [h, hon]
  · have h' : isStaleRow cutoff r = false := by simpa using h
    simp only [h', Bool.false_eq_true, if_false]
    by_cases h2 : r.status = "online"
    · simp [h2]
    · simp [h2]

/-- The UPDATE row count equals the number of online → offline
transitions between the old and new table. -/
theorem stale_count_eq_transitions (cutoff sqlNow : Timestamp) :
    ∀ clients : List ClientRow,
      (clients.filter (isStaleRow cutoff)).length
        = ((clients.zip (clients.map (fun r =>
              if isStaleRow cutoff r then
                { r with status := "offline", updated_at := some sqlNow }
              else r))).countP
            (fun rr => rr.1.status == "online" && rr.2.status == "offline"))
  | [] => rfl
  | r :: rest => by
    have hrec := stale_count_eq_transitions cutoff sqlNow rest
    have hflag := stale_flag_eq_transition cutoff sqlNow r
    rw [List.map_cons, List.zip_cons_cons, List.countP_cons, List.filter_cons]
    simp only [hflag]
    rw [← hrec]
    by_cases h : isStaleRow cutoff r = true
    · rw [h]
      simp
    · have h' : isStaleRow cutoff r = false := by simpa using h
      rw [h']
      simp

/-- Claim C8: `mark_stale_clients(T)` sets status offline exactly for the
rows that are online with `last_seen` older than `now − T` (also stamping
their `updated_at`), leaves every other row unchanged, and returns
exactly the number of rows that transitioned online → offline. -/
theorem C8_mark_stale_clients (T pyNow sqlNow : Int) (clients : List ClientRow) :
    (mark_stale_clients T pyNow sqlNow clients).1.length = clients.length ∧
    (∀ i (hi : i < clients.length)
        (hi' : i < (mark_stale_clients T pyNow sqlNow clients).1.length),
      (((clients.get ⟨i, hi⟩).status = "online" ∧
          ∃ t, (clients.get ⟨i, hi⟩).last_seen = some t ∧ t < pyNow - T) →
        (mark_stale_clients T pyNow sqlNow clients).1.get ⟨i, hi'⟩
          = { clients.get ⟨i, hi⟩ with
              status := "offline", updated_at := some sqlNow }) ∧
      (¬((clients.get ⟨i, hi⟩).status = "online" ∧
          ∃ t, (clients.get ⟨i, hi⟩).last_seen = some t ∧ t < pyNow - T) →
        (mark_stale_clients T pyNow sqlNow clients).1.get ⟨i, hi'⟩
          = clients.get ⟨i, hi⟩)) ∧
    (mark_stale_clients T pyNow sqlNow clients).2
      = ((clients.zip (mark_stale_clients T pyNow sqlNow clients).1).countP
          (fun rr => rr.1.status == "online" && rr.2.status == "offline")) := by
  refine ⟨by simp [mark_stale_clients], ?_, stale_count_eq_transitions (pyNow - T) sqlNow clients⟩
  intro i hi hi'
  have hget : (mark_stale_clients T pyNow sqlNow clients).1.get ⟨i, hi'⟩
      = (if isStaleRow (pyNow - T) (clients.get ⟨i, hi⟩) then
          { clients.get ⟨i, hi⟩ with status := "offline", updated_at := some sqlNow }
        else clients.get ⟨i, hi⟩) := by
    simp [mark_stale_clients, List.getElem_map]
  constructor
  · intro hstale
    rw [hget, if_pos ((isStaleRow_iff (pyNow - T) (clients.get ⟨i, hi⟩)).mpr hstale)]
  · intro hfresh
    rw [hget, if_neg (fun hc =>
      hfresh ((isStaleRow_iff (pyNow - T) (clients.get ⟨i, hi⟩)).mp hc))]

/-- A stale online client row. -/
def staleClientDemo : ClientRow :=
  { name := "pi-1", host := "10.0.0.1", api_port := 9100, status := "online",
    last_seen := some 10 }

/-- A recently seen online client row. -/
def freshClientDemo : ClientRow :=
  { name := "pi-2", host := "10.0.0.2", api_port := 9100, status := "online",
    last_seen := some 100 }

/-- Witness for C8: with threshold 50 at time 100, the client last seen
at 10 flips to offline and the sweep reports one transition. -/
theorem C8_mark_stale_clients_witness :
    (mark_stale_clients 50 100 100 [staleClientDemo, freshClientDemo]).1.get
        ⟨0, by decide⟩
      = { staleClientDemo with status := "offline", updated_at := some 100 } ∧
    (mark_stale_clients 50 100 100 [staleClientDemo, freshClientDemo]).2 = 1 := by
  have h := C8_mark_stale_clients 50 100 100 [staleClientDemo, freshClientDemo]
  constructor
  · exact (h.2.1 0 (by decide) (by decide)).1 ⟨by decide, 10, by decide, by decide⟩
  · rw [h.2.2]
    decide

/-! ### Claim C4 -/

/-- Key presence in the `fleet_workloads` table. -/
def hasWl (rows : List WorkloadRow) (c n : String) : Prop :=
  ∃ r ∈ rows, r.client_name = c ∧ r.workload_name = n

/-- One workload upsert keeps every key that was already present. -/
theorem heartbeatWorkloadUpsert_preserves (client : String) (now : Timestamp)
    (wl : WorkloadInfo) (rows : List WorkloadRow) (c n : String)
    (h : hasWl rows c n) : hasWl (heartbeatWorkloadUpsert client now wl rows) c n := by
  obtain ⟨r, hr, hc, hn⟩ := h
  unfold heartbeatWorkloadUpsert
  split
  · by_cases hcond : (r.client_name == client && r.workload_name == wl.name) = true
    · have h1 : r.client_name = client := by
        have := (Bool.and_eq_true _ _).mp hcond
        simpa using this.1
      have h2 : r.workload_name = wl.name := by
        have := (Bool.and_eq_true _ _).mp hcond
        simpa using this.2
      refine ⟨heartbeatWorkloadRow client now wl, ?_, h1.symm.trans hc, h2.symm.trans hn⟩
      have hmem := List.mem_map_of_mem (fun r =>
        if r.client_name == client && r.workload_name == wl.name then
          heartbeatWorkloadRow client now wl
        else r) hr
      simpa [hcond] using hmem
    · refine ⟨r, ?_, hc, hn⟩
      have hmem := List.mem_map_of_mem (fun r =>
        if r.client_name == client && r.workload_name == wl.name then
          heartbeatWorkloadRow client now wl
        else r) hr
      simpa [hcond] using hmem
  · exact ⟨r, List.mem_append_left _ hr, hc, hn⟩

/-- One workload upsert makes its own key present. -/
theorem heartbeatWorkloadUpsert_adds (client : String) (now : Timestamp)
    (wl : WorkloadInfo) (rows : List WorkloadRow) :
    hasWl (heartbeatWorkloadUpsert client now wl rows) client wl.name := by
  unfold heartbeatWorkloadUpsert
  split
  · rename_i hany
    rw [List.any_eq_true] at hany
    obtain ⟨r, hr, hp⟩ := hany
    refine ⟨heartbeatWorkloadRow client now wl, ?_, rfl, rfl⟩
    have hmem := List.mem_map_of_mem (fun r =>
      if r.client_name == client && r.workload_name == wl.name then
        heartbeatWorkloadRow client now wl
      else r) hr
    simpa [hp] using hmem
  · exact ⟨heartbeatWorkloadRow client now wl, List.mem_append_right _ (by simp), rfl, rfl⟩

/-- The workload-upsert loop keeps every key that was already present. -/
theorem heartbeatWorkloadFold_preserves (client : String) (now : Timestamp)
    (c n : String) :
    ∀ (wls : List WorkloadInfo) (rows : List WorkloadRow), hasWl rows c n →
      hasWl (wls.foldl (fun rows wl => heartbeatWorkloadUpsert client now wl rows) rows) c n
  | [], _, h => h
  | w :: ws, rows, h =>
    heartbeatWorkloadFold_preserves client now c n ws
      (heartbeatWorkloadUpsert client now w rows)
      (heartbeatWorkloadUpsert_preserves client now w rows c n h)

/-- After the workload-upsert loop, every reported workload has a row. -/
theorem heartbeatWorkloadFold_adds (client : String) (now : Timestamp)
    (wl : WorkloadInfo) :
    ∀ (wls : List WorkloadInfo) (rows : List WorkloadRow), wl ∈ wls →
      hasWl (wls.foldl (fun rows wl => heartbeatWorkloadUpsert client now wl rows) rows)
        client wl.name
  | [], _, h => absurd h (by simp)
  | w :: ws, rows, h => by
    rcases List.mem_cons.mp h with rfl | hmem
    · exact heartbeatWorkloadFold_preserves client now client wl.name ws
        (heartbeatWorkloadUpsert client now wl rows)
        (heartbeatWorkloadUpsert_adds client now wl rows)
    · exact heartbeatWorkloadFold_adds client now wl ws
        (heartbeatWorkloadUpsert client now w rows) hmem

/-- `find?` by client name through the conflict-update map: the first
matching row is returned updated. -/
theorem find?_clientUpdate (C : String) (upd : ClientRow → ClientRow)
    (hupd : ∀ r, (upd r).name = r.name) :
    ∀ (clients : List ClientRow) (r₀ : ClientRow),
      clients.find? (fun r => r.name == C) = some r₀ →
      (clients.map (fun r => if r.name == C then upd r else r)).find?
          (fun r => r.name == C)
        = some (upd r₀)
  | [], _, h => by cases h
  | a :: l, r₀, h => by
    cases ha : (a.name == C) with
    | true =>
      rw [List.find?_cons_of_pos l
        (show (fun r : ClientRow => r.name == C) a = true from ha)] at h
      have ha0 : a = r₀ := by
        simpa using h
      subst ha0
      rw [List.map_cons, if_pos ha, List.find?_cons_of_pos]
      show ((upd a).name == C) = true
      rw [hupd]
      exact ha
    | false =>
      rw [List.find?_cons_of_neg l
        (show ¬ (fun r : ClientRow => r.name == C) a = true from by simp [ha])] at h
      rw [List.map_cons, if_neg (by simp [ha]),
        List.find?_cons_of_neg (l.map (fun r => if r.name == C then upd r else r))
          (show ¬ (fun r : ClientRow => r.name == C) a = true from by simp [ha])]
      exact find?_clientUpdate C upd hupd l r₀ h

/-- Claim C4: after `upsert_heartbeat(P, host)` the set of
`fleet_workloads` keys stored for client `C` is exactly the set of
reported workload names (an empty report deletes all of `C`'s rows), and
the stored `deployed_version` of an existing client row is preserved for
a null payload version and replaced by a non-null one
(`coalesce P.deployed_version old`). -/
theorem C4_upsert_heartbeat (p : HeartbeatPayload) (host : String) (now : Timestamp)
    (st : FleetState) :
    (∀ n, hasWl (upsert_heartbeat p host now st).workloads p.client_name n ↔
        n ∈ p.workloads.map (fun wl => wl.name)) ∧
    (∀ r₀, st.clients.find? (fun r => r.name == p.client_name) = some r₀ →
      ((upsert_heartbeat p host now st).clients.find?
          (fun r => r.name == p.client_name)).map (fun r => r.deployed_version)
        = some (coalesce p.deployed_version r₀.deployed_version)) := by
  have hw : (upsert_heartbeat p host now st).workloads
      = heartbeatDeleteStale p.client_name (p.workloads.map (fun wl => wl.name))
          (p.workloads.foldl
            (fun rows wl => heartbeatWorkloadUpsert p.client_name now wl rows)
            st.workloads) := rfl
  have hcl : (upsert_heartbeat p host now st).clients
      = heartbeatClientUpsert p host now st.clients := rfl
  constructor
  · intro n
    constructor
    · rintro ⟨r, hr, hc, hn⟩
      rw [hw] at hr
      unfold heartbeatDeleteStale at hr
      by_cases hemp : (p.workloads.map (fun wl => wl.name)).isEmpty = true
      · rw [if_pos hemp] at hr
        have hbad := (List.mem_filter.mp hr).2
        rw [hc] at hbad
        simp at hbad
      · rw [if_neg hemp] at hr
        have hcond := (List.mem_filter.mp hr).2
        rw [hc, hn] at hcond
        simpa using hcond
    · intro hn
      obtain ⟨wl, hwl, rfl⟩ := List.mem_map.mp hn
      rw [hw]
      unfold heartbeatDeleteStale
      have hne : (p.workloads.map (fun wl => wl.name)).isEmpty = false := by
        have hmem : wl.name ∈ p.workloads.map (fun wl => wl.name) :=
          List.mem_map_of_mem _ hwl
        rcases hm : p.workloads.map (fun wl => wl.name) with _ | _
        · rw [hm] at hmem
          cases hmem
        · rw [hm]
          rfl
      rw [if_neg (by simp [hne])]
      obtain ⟨r, hr, hc, hn⟩ := heartbeatWorkloadFold_adds p.client_name now wl
        p.workloads st.workloads hwl
      refine ⟨r, List.mem_filter.mpr ⟨hr, ?_⟩, hc, hn⟩
      rw [hc, hn]
      simp
      exact ⟨wl, hwl, rfl⟩
  · intro r₀ hfind
    rw [hcl]
    unfold heartbeatClientUpsert
    have hany : st.clients.any (fun r => r.name == p.client_name) = true := by
      have hmem := List.mem_of_find?_eq_some hfind
      have hp := List.find?_some hfind
      rw [List.any_eq_true]
      exact ⟨r₀, hmem, hp⟩
    rw [if_pos hany]
    rw [find?_clientUpdate p.client_name (heartbeatClientUpdate p host now)
      (fun _ => rfl) st.clients r₀ hfind]
    rfl

/-- The stored client row used by the C4 witness. -/
def clientDemo : ClientRow :=
  { name := "c1", host := "10.0.0.5", api_port := 9100, status := "online",
    last_seen := some 50, deployed_version := some "v0" }

/-- The heartbeat payload used by the C4 witness: one workload "w1" and a
null `deployed_version`. -/
def heartbeatDemo : HeartbeatPayload :=
  { client_name := "c1"
    timestamp := 100
    deployed_version := none
    workloads := [{ name := "w1", type := "agent", run_mode := "forever",
                    status := "running", pid := some 42, run_count := 1 }] }

/-- The fleet state used by the C4 witness: client "c1" with a stale
workload row "w0" that the heartbeat no longer reports. -/
def fleetDemo : FleetState :=
  { clients := [clientDemo]
    workloads := [{ client_name := "c1", workload_name := "w0",
                    workload_type := "agent", run_mode := "forever",
                    status := "running", pid := some 7, run_count := 3,
                    last_started := none, last_error := none, updated_at := 10 }] }

/-- Witness for C4: after the heartbeat, "w1" is stored for "c1", and the
null payload version leaves the stored `deployed_version` at "v0". -/
theorem C4_upsert_heartbeat_witness :
    hasWl (upsert_heartbeat heartbeatDemo "10.0.0.5" 100 fleetDemo).workloads "c1" "w1" ∧
    ((upsert_heartbeat heartbeatDemo "10.0.0.5" 100 fleetDemo).clients.find?
        (fun r => r.name == "c1")).map (fun r => r.deployed_version)
      = some (some "v0") := by
  have h := C4_upsert_heartbeat heartbeatDemo "10.0.0.5" 100 fleetDemo
  constructor
  · exact (h.1 "w1").mpr (by decide)
  · have h2 := h.2 clientDemo (by decide)
    simpa [heartbeatDemo, clientDemo, coalesce] using h2

/-! ### Claim C10 -/

/-- Every branch of the client-status UPDATE keeps the key columns and
writes the requested status. -/
theorem updateDeploymentClientRow_fields (status : String) (err : Option String)
    (now : Timestamp) (r : DeploymentClientRow) :
    (updateDeploymentClientRow status err now r).deployment_id = r.deployment_id ∧
    (updateDeploymentClientRow status err now r).client_name = r.client_name ∧
    (updateDeploymentClientRow status err now r).status = status := by
  unfold updateDeploymentClientRow
  split
  · exact ⟨rfl, rfl, rfl⟩
  · split
    · exact ⟨rfl, rfl, rfl⟩
    · exact ⟨rfl, rfl, rfl⟩

/-- The client-status UPDATE keeps every `(deployment_id, client_name)`
key that was present. -/
theorem updateDCS_exists (did cn status : String) (err : Option String)
    (now : Timestamp) (rows : List DeploymentClientRow) (d c : String)
    (h : ∃ r ∈ rows, r.deployment_id = d ∧ r.client_name = c) :
    ∃ r ∈ update_deployment_client_status did cn status err now rows,
      r.deployment_id = d ∧ r.client_name = c := by
  obtain ⟨r, hr, h1, h2⟩ := h
  have hmem := List.mem_map_of_mem (fun r =>
    if r.deployment_id == did && r.client_name == cn then
      updateDeploymentClientRow status err now r
    else r) hr
  have hmem' : (if (r.deployment_id == did && r.client_name == cn) = true then
        updateDeploymentClientRow status err now r
      else r)
      ∈ update_deployment_client_status did cn status err now rows := hmem
  by_cases hcond : (r.deployment_id == did && r.client_name == cn) = true
  · rw [if_pos hcond] at hmem'
    refine ⟨updateDeploymentClientRow status err now r, hmem', ?_, ?_⟩
    · rw [(updateDeploymentClientRow_fields status err now r).1]
      exact h1
    · rw [(updateDeploymentClientRow_fields status err now r).2.1]
      exact h2
  · rw [if_neg hcond] at hmem'
    exact ⟨r, hmem', h1, h2⟩

/-- Every row of this deployment for client `c` carries status
`rolled_back`. -/
def allRolledBack (rows : List DeploymentClientRow) (did c : String) : Prop :=
  ∀ r ∈ rows, r.deployment_id = did → r.client_name = c → r.status = "rolled_back"

/-- Writing `rolled_back` for `(did, c)` establishes the invariant for
that key. -/
theorem updateDCS_establishes (did c : String) (err : Option String) (now : Timestamp)
    (rows : List DeploymentClientRow) :
    allRolledBack (update_deployment_client_status did c "rolled_back" err now rows)
      did c := by
  intro r hr h1 h2
  obtain ⟨r₀, hr₀, heq⟩ := List.mem_map.mp hr
  have heq' : (if (r₀.deployment_id == did && r₀.client_name == c) = true then
      updateDeploymentClientRow "rolled_back" err now r₀ else r₀) = r := heq
  by_cases hcond : (r₀.deployment_id == did && r₀.client_name == c) = true
  · rw [if_pos hcond] at heq'
    rw [← heq']
    exact (updateDeploymentClientRow_fields "rolled_back" err now r₀).2.2
  · rw [if_neg hcond] at heq'
    subst heq'
    exact absurd (by simp [h1, h2]) hcond

/-- Writing `rolled_back` for any other client keeps the invariant. -/
theorem updateDCS_preserves_rolled (did c c2 : String) (err : Option String)
    (now : Timestamp) (rows : List DeploymentClientRow)
    (h : allRolledBack rows did c) :
    allRolledBack (update_deployment_client_status did c2 "rolled_back" err now rows)
      did c := by
  intro r hr h1 h2
  obtain ⟨r₀, hr₀, heq⟩ := List.mem_map.mp hr
  have heq' : (if (r₀.deployment_id == did && r₀.client_name == c2) = true then
      updateDeploymentClientRow "rolled_back" err now r₀ else r₀) = r := heq
  by_cases hcond : (r₀.deployment_id == did && r₀.client_name == c2) = true
  · rw [if_pos hcond] at heq'
    rw [← heq']
    exact (updateDeploymentClientRow_fields "rolled_back" err now r₀).2.2
  · rw [if_neg hcond] at heq'
    subst heq'
    exact h r₀ hr₀ h1 h2

/-- The marking loop of `_rollback` preserves the invariant. -/
theorem rollbackMark_preserves (did c : String) (now : Timestamp) :
    ∀ (targets rows : List DeploymentClientRow), allRolledBack rows did c →
      allRolledBack (targets.foldl (fun rows t =>
        update_deployment_client_status did t.client_name "rolled_back" none now rows)
        rows) did c
  | [], _, h => h
  | t :: ts, rows, h =>
    rollbackMark_preserves did c now ts
      (update_deployment_client_status did t.client_name "rolled_back" none now rows)
      (updateDCS_preserves_rolled did c t.client_name none now rows h)

/-- After the marking loop, every selected client's rows of this
deployment are `rolled_back`. -/
theorem rollbackMark_marks (did : String) (now : Timestamp) (c : DeploymentClientRow) :
    ∀ (targets rows : List DeploymentClientRow), c ∈ targets →
      allRolledBack (targets.foldl (fun rows t =>
        update_deployment_client_status did t.client_name "rolled_back" none now rows)
        rows) did c.client_name
  | [], _, h => absurd h (by simp)
  | t :: ts, rows, h => by
    rcases List.mem_cons.mp h with rfl | hmem
    · exact rollbackMark_preserves did c.client_name now ts
        (update_deployment_client_status did c.client_name "rolled_back" none now rows)
        (updateDCS_establishes did c.client_name none now rows)
    · exact rollbackMark_marks did now c ts
        (update_deployment_client_status did t.client_name "rolled_back" none now rows)
        hmem

/-- The marking loop keeps every key that was present. -/
theorem rollbackMark_exists (did : String) (now : Timestamp) (d cn : String) :
    ∀ (targets rows : List DeploymentClientRow),
      (∃ r ∈ rows, r.deployment_id = d ∧ r.client_name = cn) →
      ∃ r ∈ targets.foldl (fun rows t =>
          update_deployment_client_status did t.client_name "rolled_back" none now rows)
        rows, r.deployment_id = d ∧ r.client_name = cn
  | [], _, h => h
  | t :: ts, rows, h =>
    rollbackMark_exists did now d cn ts
      (update_deployment_client_status did t.client_name "rolled_back" none now rows)
      (updateDCS_exists did t.client_name "rolled_back" none now rows d cn h)

/-- Any action attempted for a client during rollback addresses that
client and only exists when a `previous_version` was recorded. -/
theorem rollbackClientActions_client (st : FleetState) (c : DeploymentClientRow)
    (a : DeployAction) (ha : a ∈ rollbackClientActions st c) :
    a.client = c.client_name ∧ c.previous_version ≠ none := by
  cases hpv : c.previous_version with
  | none =>
    simp only [rollbackClientActions, hpv] at ha
    exact absurd ha (by simp)
  | some v =>
    simp only [rollbackClientActions, hpv] at ha
    refine ⟨?_, by simp [hpv]⟩
    rcases List.mem_cons.mp ha with rfl | ha2
    · rfl
    · cases hre : resolve_client_endpoint st c.client_name with
      | none =>
        rw [hre] at ha2
        exact absurd ha2 (by simp)
      | some ep =>
        rw [hre] at ha2
        rcases List.mem_cons.mp ha2 with rfl | h3
        · rfl
        · exact absurd h3 (by simp)

/-- Claim C10: during `_rollback` every deployment-client row in batches
up to the failed one whose status is deploying, deployed, healthy or
failed ends `rolled_back`; a row with a null `previous_version` causes no
file push and no reload call for its client; and the rollback never
touches `fleet_clients`, so no stored `deployed_version` changes.  The
`Nodup` hypothesis is the `(deployment_id, client_name)` primary key of
`deployment_clients`. -/
theorem C10_rollback_null_previous (deployment_id : String) (failed_batch : Int)
    (now : Timestamp) (st : FleetState)
    (hnd : ((st.deployment_clients.filter
        (fun c => c.deployment_id == deployment_id)).map
          (fun c => c.client_name)).Nodup) :
    (∀ r ∈ st.deployment_clients, r.deployment_id = deployment_id →
      r.batch_number ≤ failed_batch →
      (r.status = "deploying" ∨ r.status = "deployed" ∨ r.status = "healthy" ∨
        r.status = "failed") →
      ∃ r' ∈ (rollback deployment_id failed_batch now st).1.deployment_clients,
        r'.deployment_id = deployment_id ∧ r'.client_name = r.client_name ∧
          r'.status = "rolled_back") ∧
    (∀ r ∈ st.deployment_clients, r.deployment_id = deployment_id →
      r.previous_version = none →
      ∀ a ∈ (rollback deployment_id failed_batch now st).2,
        a.client ≠ r.client_name) ∧
    (rollback deployment_id failed_batch now st).1.clients = st.clients := by
  have hdc : (rollback deployment_id failed_batch now st).1.deployment_clients
      = ((st.deployment_clients.filter
            (fun c => c.deployment_id == deployment_id)).filter
          (rollbackSelect failed_batch)).foldl
          (fun rows t => update_deployment_client_status deployment_id t.client_name
            "rolled_back" none now rows)
          st.deployment_clients := rfl
  have hact : (rollback deployment_id failed_batch now st).2
      = ((st.deployment_clients.filter
            (fun c => c.deployment_id == deployment_id)).filter
          (rollbackSelect failed_batch)).flatMap
          (rollbackClientActions
            { st with
              deployments :=
                update_deployment_status deployment_id "rolling_back" none now now
                  st.deployments }) := rfl
  refine ⟨?_, ?_, rfl⟩
  · intro r hr h1 h2 h3
    have hrF : r ∈ st.deployment_clients.filter
        (fun c => c.deployment_id == deployment_id) :=
      List.mem_filter.mpr ⟨hr, by simp [h1]⟩
    have hrT : r ∈ (st.deployment_clients.filter
        (fun c => c.deployment_id == deployment_id)).filter
          (rollbackSelect failed_batch) := by
      refine List.mem_filter.mpr ⟨hrF, ?_⟩
      unfold rollbackSelect
      rcases h3 with h3 | h3 | h3 | h3 <;> simp [h2, h3]
    rw [hdc]
    obtain ⟨r', hr', k1, k2⟩ := rollbackMark_exists deployment_id now deployment_id
      r.client_name _ st.deployment_clients ⟨r, hr, h1, rfl⟩
    refine ⟨r', hr', k1, k2, ?_⟩
    exact rollbackMark_marks deployment_id now r _ st.deployment_clients hrT r' hr' k1 k2
  · intro r hr h1 hpv a ha
    rw [hact] at ha
    obtain ⟨c, hcT, hac⟩ := List.mem_flatMap.mp ha
    obtain ⟨hac1, hac2⟩ := rollbackClientActions_client _ c a hac
    intro heq
    have hceq : c.client_name = r.client_name := by rw [← hac1, heq]
    have hcF : c ∈ st.deployment_clients.filter
        (fun x => x.deployment_id == deployment_id) :=
      (List.mem_filter.mp hcT).1
    have hrF : r ∈ st.deployment_clients.filter
        (fun x => x.deployment_id == deployment_id) :=
      List.mem_filter.mpr ⟨hr, by simp [h1]⟩
    have hcr : c = r := List.inj_on_of_nodup_map hnd hcF hrF hceq
    rw [hcr] at hac2
    exact hac2 hpv

/-- A deployment-client row with no recorded previous version. -/
def dcNullDemo : DeploymentClientRow :=
  { deployment_id := "d1", client_name := "pi-1", batch_number := 0,
    status := "deployed", previous_version := none }

/-- A failed deployment-client row that recorded a previous version. -/
def dcPrevDemo : DeploymentClientRow :=
  { deployment_id := "d1", client_name := "pi-2", batch_number := 0,
    status := "failed", previous_version := some "v1" }

/-- Store state for the C10 witness. -/
def rollbackDemoState : FleetState :=
  { clients := [clientDemo]
    deployments :=
      [{ id := "d1", version := "v2", status := "in_progress", batch_size := 2,
         target_clients := ["pi-1", "pi-2"], created_at := 0 }]
    deployment_clients := [dcNullDemo, dcPrevDemo] }

/-- Witness for C10 at a concrete rollback: the null-previous-version
client ends `rolled_back`, no action addresses it, and `fleet_clients`
is untouched. -/
theorem C10_rollback_null_previous_witness :
    (∃ r' ∈ (rollback "d1" 0 5 rollbackDemoState).1.deployment_clients,
      r'.deployment_id = "d1" ∧ r'.client_name = "pi-1" ∧
        r'.status = "rolled_back") ∧
    (∀ a ∈ (rollback "d1" 0 5 rollbackDemoState).2, a.client ≠ "pi-1") ∧
    (rollback "d1" 0 5 rollbackDemoState).1.clients = rollbackDemoState.clients := by
  have h := C10_rollback_null_previous "d1" 0 5 rollbackDemoState (by decide)
  exact ⟨h.1 dcNullDemo (by decide) rfl (by decide) (Or.inr (Or.inl rfl)),
    h.2.1 dcNullDemo (by decide) rfl rfl, h.2.2⟩

end MasterControl
